import Mathlib

/-!
Verification of the Telemetry Normalization and Resilience Layer of the
AI Predictive Maintenance frontend.

The definitions below are a shallow embedding of the TypeScript source:

* the threshold classifier and channel aggregation loop of
  SensorMonitors.fetchSensorData (src/README.md, frontend component code);
* the alias-to-channel resolver used by that loop (typeMapping table,
  exact lookup then substring containment);
* the resilient fetch wrapper safeApi.get together with its fallback data
  generator generateMockData (src/frontend/src/api/safeApi.ts);
* the combined service-health signal of OfflineIndicator
  (src/unnamed/part_000);
* the Stability card badge ternary of the Dashboard page
  (src/frontend/src/pages/Dashboard.tsx).

JavaScript numbers are modelled as rationals, timestamps as integers
(epoch milliseconds), absent or null fields as Option, and JavaScript
string truthiness (empty string is falsy) explicitly.
-/

/-- The five logical channels tracked by the SensorMonitors component,
matching the keys of its monitors record. -/
inductive Channel : Type
  | temperature
  | vibration
  | pressure
  | motor_current
  | wear_index
deriving DecidableEq, Repr

/-- Classification tiers assigned by the threshold classifier. -/
inductive Status : Type
  | normal
  | warning
  | critical
deriving DecidableEq, Repr

/-- Warning boundary per channel, from the ternary chains in
fetchSensorData (value greater than 70 etc. means at least warning). -/
def warnThreshold : Channel → ℚ
  | Channel.temperature => 70
  | Channel.vibration => 4
  | Channel.pressure => 150
  | Channel.motor_current => 18
  | Channel.wear_index => 60

/-- Critical boundary per channel, from the same ternary chains. -/
def critThreshold : Channel → ℚ
  | Channel.temperature => 80
  | Channel.vibration => 6
  | Channel.pressure => 180
  | Channel.motor_current => 22
  | Channel.wear_index => 80

/-- The threshold classifier: value greater than critical gives critical,
otherwise value greater than warning gives warning, otherwise normal.
Embeds the chain: value larger than 80 gives critical, value larger than 70
gives warning, else normal (and likewise for the other channels). -/
def classify (ch : Channel) (v : ℚ) : Status :=
  if critThreshold ch < v then Status.critical
  else if warnThreshold ch < v then Status.warning
  else Status.normal

/-- Severity order used to compare statuses: normal below warning below
critical. -/
def severity : Status → Nat
  | Status.normal => 0
  | Status.warning => 1
  | Status.critical => 2

/-- Lower-case a string character by character, as the JavaScript
toLowerCase calls do on the ASCII labels involved. -/
def lowerStr (s : String) : String := ⟨s.data.map Char.toLower⟩

/-- Does the needle match at the front of the haystack? Helper for the
JavaScript String.includes semantics. -/
def charsAt : List Char → List Char → Bool
  | [], _ => true
  | _ :: _, [] => false
  | a :: as, b :: bs => a == b && charsAt as bs

/-- Does the needle occur anywhere inside the haystack? An empty needle
occurs in every haystack, exactly as with JavaScript String.includes. -/
def charsHas (needle : List Char) : List Char → Bool
  | [] => charsAt needle []
  | c :: rest => charsAt needle (c :: rest) || charsHas needle rest

/-- JavaScript hay.includes(needle). -/
def strContains (hay needle : String) : Bool := charsHas needle.data hay.data

/-- JavaScript String.trim: strip leading and trailing whitespace. -/
def trimStr (s : String) : String :=
  ⟨((s.data.dropWhile Char.isWhitespace).reverse.dropWhile Char.isWhitespace).reverse⟩

/-- Replace every maximal run of whitespace by a single underscore, as the
regular-expression replacement in the sensor-name normalization does. -/
def collapseWs : Bool → List Char → List Char
  | _, [] => []
  | inWs, c :: rest =>
    if c.isWhitespace then
      if inWs then collapseWs true rest else '_' :: collapseWs true rest
    else c :: collapseWs false rest

/-- The sensor-name normalization step applied to name candidates. -/
def underscoreWs (s : String) : String := ⟨collapseWs false s.data⟩

/-- JavaScript string-or: the left string when present and non-empty
(non-empty strings are truthy), otherwise the right fallback. -/
def jsOrS : Option String → String → String
  | some s, b => if s = "" then b else s
  | none, b => b

/-- A raw reading as consumed by fetchSensorData: the optional metadata
and sensor sub-object fields it probes, the numeric value (none models a
value that does not parse as a number), the two timestamp candidates in
epoch milliseconds, and the source sensor id. -/
structure RawReading where
  metaAlias : Option String := none
  metaCategory : Option String := none
  metaSensorType : Option String := none
  metaSensorName : Option String := none
  sensorSensorType : Option String := none
  sensorNameField : Option String := none
  metaSensorUnit : Option String := none
  metaUnit : Option String := none
  sensorUnitField : Option String := none
  value : Option ℚ := none
  timestamp : Option Int := none
  createdAt : Option Int := none
  sensorId : Option String := none
deriving DecidableEq

/-- The prioritized hint chain of fetchSensorData: metadata alias, then
category, then sensor type, then normalized sensor name, then the sensor
sub-object type and normalized name, falling through on absent or empty
candidates, with a final trim. -/
def hintOf (r : RawReading) : String :=
  trimStr (jsOrS (r.metaAlias.map lowerStr)
    (jsOrS (r.metaCategory.map lowerStr)
      (jsOrS (r.metaSensorType.map lowerStr)
        (jsOrS (r.metaSensorName.map (fun s => underscoreWs (lowerStr s)))
          (jsOrS (r.sensorSensorType.map lowerStr)
            (jsOrS (r.sensorNameField.map (fun s => underscoreWs (lowerStr s))) ""))))))

/-- The static alias table of fetchSensorData, in insertion order. -/
def typeMapping : List (String × Channel) :=
  [("temperature", Channel.temperature),
   ("opcua_temperature", Channel.temperature),
   ("temp", Channel.temperature),
   ("vibration", Channel.vibration),
   ("opcua_vibration", Channel.vibration),
   ("vib", Channel.vibration),
   ("pressure", Channel.pressure),
   ("opcua_pressure", Channel.pressure),
   ("press", Channel.pressure),
   ("motor_current", Channel.motor_current),
   ("opcua_motor_current", Channel.motor_current),
   ("motorcurrent", Channel.motor_current),
   ("current", Channel.motor_current),
   ("wear_index", Channel.wear_index),
   ("opcua_wear_index", Channel.wear_index),
   ("wear", Channel.wear_index),
   ("wearindex", Channel.wear_index)]

/-- Exact lookup in the alias table (the object indexing step). -/
def lookupExact (s : String) : Option Channel :=
  (typeMapping.find? (fun p => p.1 == s)).map (fun p => p.2)

/-- The containment fallback: scan the table in order and take the first
entry whose key contains the hint or is contained in it. -/
def lookupContained (s : String) : Option Channel :=
  (typeMapping.find? (fun p => strContains s p.1 || strContains p.1 s)).map (fun p => p.2)

/-- The alias resolver on a hint string: exact match first, then the
containment scan. -/
def resolveHint (s : String) : Option Channel :=
  match lookupExact s with
  | some ch => some ch
  | none => lookupContained s

/-- The alias resolver on a raw reading. -/
def resolveChannel (r : RawReading) : Option Channel := resolveHint (hintOf r)

/-- One snapshot entry of the monitors record: display name, latest value,
unit, classified status, timestamp (none models the initial empty-string
timestamp, meaning no data yet) and source sensor id. -/
structure MonitorEntry where
  name : String
  value : ℚ
  unit : String
  status : Status
  timestamp : Option Int
  sensorId : Option String := none
deriving DecidableEq

/-- A snapshot maps every channel to its current entry; the monitors
record always carries all five keys. -/
def Snapshot : Type := Channel → MonitorEntry

/-- The initial monitors state of the SensorMonitors component. -/
def initialMonitors : Snapshot := fun ch =>
  match ch with
  | Channel.temperature =>
    { name := "Temperature", value := 0, unit := "°C", status := Status.normal, timestamp := none }
  | Channel.vibration =>
    { name := "Vibration", value := 0, unit := "mm/s RMS", status := Status.normal, timestamp := none }
  | Channel.pressure =>
    { name := "Pressure", value := 0, unit := "bar", status := Status.normal, timestamp := none }
  | Channel.motor_current =>
    { name := "Motor Current", value := 0, unit := "A", status := Status.normal, timestamp := none }
  | Channel.wear_index =>
    { name := "Wear Index", value := 0, unit := "", status := Status.normal, timestamp := none }

/-- The timestamp of a reading: the timestamp field, else created_at. -/
def tsOf (r : RawReading) : Option Int :=
  match r.timestamp with
  | some t => some t
  | none => r.createdAt

/-- The update guard of fetchSensorData: update when the current entry has
no timestamp yet, or when the incoming timestamp is strictly newer; a
reading with no timestamp never beats an entry that has one (the date
comparison against an invalid date is false). -/
def isNewer : Option Int → Option Int → Bool
  | none, _ => true
  | some _, none => false
  | some c, some t => decide (c < t)

/-- The numeric value of a reading: parseFloat coerced to 0 when it does
not parse. -/
def valOf (r : RawReading) : ℚ := r.value.getD 0

/-- The unit chain and per-channel overrides of fetchSensorData. -/
def unitOf (r : RawReading) (ch : Channel) (defUnit : String) : String :=
  let u := jsOrS r.metaSensorUnit (jsOrS r.metaUnit (jsOrS r.sensorUnitField ""))
  if ch = Channel.vibration ∧ strContains u "mm/s" = false then "mm/s RMS"
  else if ch = Channel.wear_index then ""
  else if u = "" then defUnit
  else u

/-- The replacement entry built from a reading: name and default unit come
from the snapshot held at the start of the pass, the rest from the
reading. -/
def entryOf (prev : Snapshot) (ch : Channel) (r : RawReading) : MonitorEntry :=
  { name := (prev ch).name
    value := valOf r
    unit := unitOf r ch ((prev ch).unit)
    status := classify ch (valOf r)
    timestamp := tsOf r
    sensorId := r.sensorId }

/-- Pointwise snapshot update at one channel. -/
def updateSnap (s : Snapshot) (ch : Channel) (e : MonitorEntry) : Snapshot :=
  fun c => if c = ch then e else s c

/-- One iteration of the forEach over the batch: resolve the reading, drop
it when unresolved, otherwise replace the accumulated entry when the
update guard allows it. The first snapshot argument is the fixed state at
the start of the pass (used for name and default unit), the second is the
evolving accumulator. -/
def processReading (prev acc : Snapshot) (r : RawReading) : Snapshot :=
  match resolveChannel r with
  | none => acc
  | some ch =>
    if isNewer ((acc ch).timestamp) (tsOf r) then updateSnap acc ch (entryOf prev ch r)
    else acc

/-- The whole aggregation pass of fetchSensorData over a batch. -/
def aggregate (prev : Snapshot) (batch : List RawReading) : Snapshot :=
  batch.foldl (processReading prev) prev

/-- JSON-shaped values, the payloads moved around by safeApi. -/
inductive Json : Type
  | null
  | str (s : String)
  | num (q : ℚ)
  | bool (b : Bool)
  | arr (items : List Json)
  | obj (fields : List (String × Json))

/-- One synthetic prediction item of generateMockData; the two random
draws are supplied as streams indexed by item position. -/
def mockPrediction (now : Int) (scoreR confR : Nat → ℚ) (i : Nat) : Json :=
  Json.obj
    [("id", Json.str ("mock-" ++ toString i)),
     ("machine_id", Json.str "mock-machine"),
     ("sensor_id", Json.str "mock-sensor"),
     ("timestamp", Json.num ((now : ℚ) - (i : ℚ) * 60000)),
     ("score", Json.num (1 / 2 + scoreR i * (3 / 10))),
     ("confidence", Json.num (7 / 10 + confR i * (1 / 5))),
     ("status", Json.str (if i % 3 = 0 then "critical" else if i % 3 = 1 then "warning" else "normal")),
     ("prediction", Json.str (if i % 3 = 0 then "anomaly" else "normal"))]

/-- The synthetic dashboard overview object. -/
def mockOverview : Json :=
  Json.obj
    [("machines", Json.obj [("total", Json.num 5), ("online", Json.num 4)]),
     ("alarms", Json.obj [("active", Json.num 2)]),
     ("sensors", Json.obj [("total", Json.num 20)]),
     ("predictions", Json.obj [("last_24h", Json.num 150)])]

/-- One synthetic machine object. -/
def mockMachine (i : Nat) : Json :=
  Json.obj
    [("id", Json.str ("mock-machine-" ++ toString i)),
     ("name", Json.str ("Machine " ++ toString (i + 1))),
     ("location", Json.str ("Location " ++ toString (i + 1))),
     ("status", Json.str (if i % 2 = 0 then "active" else "inactive")),
     ("machine_type", Json.str "Motor")]

/-- The synthetic AI status object. -/
def mockAiStatus : Json :=
  Json.obj
    [("status", Json.str "unavailable"),
     ("model_loaded", Json.bool false),
     ("message", Json.str "Backend offline - using fallback data")]

/-- The synthetic MQTT status object. -/
def mockMqttStatus : Json :=
  Json.obj
    [("connected", Json.bool false),
     ("broker", Json.obj [("host", Json.str "unknown"), ("port", Json.num 1883)]),
     ("consumer", Json.obj [("connected", Json.bool false)])]

/-- generateMockData of safeApi.ts: substring dispatch over the endpoint
URL, returning null for every endpoint that matches none of the five
recognized patterns. -/
def generateMockData (now : Int) (scoreR confR : Nat → ℚ) (endpoint : String) : Json :=
  if strContains endpoint "/predictions" then
    Json.arr ((List.range 10).map (mockPrediction now scoreR confR))
  else if strContains endpoint "/dashboard/overview" then mockOverview
  else if strContains endpoint "/machines" then
    Json.arr ((List.range 5).map mockMachine)
  else if strContains endpoint "/ai/status" then mockAiStatus
  else if strContains endpoint "/mqtt/status" then mockMqttStatus
  else Json.null

/-- The tri-state backend health signal of the backend store. -/
inductive BackendStatus : Type
  | online
  | offline
  | checking
deriving DecidableEq

/-- Abstract outcome of the live axios call when it is attempted: either
a payload, or any failure (timeout, transport error, non-success status)
carrying its message. -/
inductive LiveOutcome : Type
  | success (d : Json)
  | failure (msg : String)

/-- The value safeApi.get resolves with. -/
structure ApiResult where
  fallback : Bool
  data : Json
  error : Option String

/-- The result together with whether the live network call was made. -/
structure GetTrace where
  result : ApiResult
  networkCalled : Bool

/-- safeApi.get: when the backend store says offline, return synthesized
fallback data at once without touching the network; otherwise attempt the
live call, returning its payload tagged live on success and synthesized
fallback data plus the error message on any failure. Total by
construction: every branch resolves with a value. -/
def safeApiGet (now : Int) (scoreR confR : Nat → ℚ) (st : BackendStatus)
    (live : LiveOutcome) (url : String) : GetTrace :=
  if st = BackendStatus.offline then
    { result := { fallback := true, data := generateMockData now scoreR confR url, error := none },
      networkCalled := false }
  else
    match live with
    | LiveOutcome.success d =>
      { result := { fallback := false, data := d, error := none }, networkCalled := true }
    | LiveOutcome.failure m =>
      { result := { fallback := true, data := generateMockData now scoreR confR url, error := some m },
        networkCalled := true }

/-- The probe results combined by the OfflineIndicator component. -/
structure ServiceStatus where
  backend : Bool
  ai : Bool
  mqtt : Bool
  lastCheck : Int
deriving DecidableEq

/-- The combined offline signal of OfflineIndicator: offline exactly when
the backend probe failed. -/
def isOffline (s : ServiceStatus) : Bool := !s.backend

/-- JavaScript Array.find over the stability-percent values with the
predicate: non-null and strictly below the bound; returns the first such
element. -/
def jsFindLt (b : ℚ) : List (Option ℚ) → Option ℚ
  | [] => none
  | none :: rest => jsFindLt b rest
  | some v :: rest => if v < b then some v else jsFindLt b rest

/-- JavaScript truthiness of a find result: undefined and the number 0 are
falsy. -/
def jsTruthy : Option ℚ → Bool
  | none => false
  | some v => decide (v ≠ 0)

/-- The Stability card badge ternary of the Dashboard page: Unstable when
some non-null value below 80 is found (and truthy), else Critical when
some non-null value below 60 is found (and truthy), else Stable. -/
def stabilityBadge (vals : List (Option ℚ)) : String :=
  if jsTruthy (jsFindLt 80 vals) then "Unstable"
  else if jsTruthy (jsFindLt 60 vals) then "Critical"
  else "Stable"

/-- A concrete reading whose candidate hint fields are all absent. -/
def blankHintReading : RawReading := { value := some 85, timestamp := some 5 }

/-- A concrete temperature reading with timestamp 1 and value 3. -/
def readA : RawReading := { metaAlias := some "temp", value := some 3, timestamp := some 1 }

/-- A concrete temperature reading with timestamp 2 and value 5. -/
def readB : RawReading := { metaAlias := some "temp", value := some 5, timestamp := some 2 }

/-- A concrete reading whose hint matches no alias table entry. -/
def strayReading : RawReading := { metaAlias := some "xyz", value := some 1, timestamp := some 1 }

theorem warn_lt_crit (ch : Channel) : warnThreshold ch < critThreshold ch := by
  cases ch <;> norm_num [warnThreshold, critThreshold]

/-- C1: the threshold classifier assigns exactly one status with
exclusive-lower boundaries: critical exactly when the value is strictly
above the critical boundary, warning exactly when it is strictly above the
warning boundary but not above the critical one, normal exactly when it is
not above the warning boundary; and the fixed boundary table is
temperature 70 and 80, vibration 4 and 6, pressure 150 and 180, motor
current 18 and 22, wear index 60 and 80. -/
theorem classifier_boundaries_c1 (ch : Channel) (v : ℚ) :
    (classify ch v = Status.critical ↔ critThreshold ch < v) ∧
    (classify ch v = Status.warning ↔ warnThreshold ch < v ∧ v ≤ critThreshold ch) ∧
    (classify ch v = Status.normal ↔ v ≤ warnThreshold ch) ∧
    (warnThreshold Channel.temperature = 70 ∧ critThreshold Channel.temperature = 80) ∧
    (warnThreshold Channel.vibration = 4 ∧ critThreshold Channel.vibration = 6) ∧
    (warnThreshold Channel.pressure = 150 ∧ critThreshold Channel.pressure = 180) ∧
    (warnThreshold Channel.motor_current = 18 ∧ critThreshold Channel.motor_current = 22) ∧
    (warnThreshold Channel.wear_index = 60 ∧ critThreshold Channel.wear_index = 80) := by
  have hwc := warn_lt_crit ch
  refine ⟨?_, ?_, ?_, by norm_num [warnThreshold, critThreshold],
    by norm_num [warnThreshold, critThreshold], by norm_num [warnThreshold, critThreshold],
    by norm_num [warnThreshold, critThreshold], by norm_num [warnThreshold, critThreshold]⟩
  · unfold classify
    split_ifs with h1 h2 <;> simp <;> linarith
  · unfold classify
    split_ifs with h1 h2 <;> simp <;> first
      | (intro h3; linarith)
      | exact ⟨h2, by linarith⟩
  · unfold classify
    split_ifs with h1 h2 <;> simp <;> linarith

/-- C2: classification is monotone in the value: for values v1 at most v2
on the same channel, the status of v1 is never more severe than the status
of v2 (severity ordered normal, warning, critical); totality and
determinism hold because classify is a function. -/
theorem classifier_monotone_c2 (ch : Channel) (v1 v2 : ℚ) (h : v1 ≤ v2) :
    severity (classify ch v1) ≤ severity (classify ch v2) := by
  unfold classify
  split_ifs with h1 h2 h3 h4 h5 <;> simp [severity] <;> linarith

/-- Witness for C2 at a concrete input: 50 then 75 on the temperature
channel. -/
theorem classifier_monotone_c2_witness :
    severity (classify Channel.temperature 50) ≤ severity (classify Channel.temperature 75) :=
  classifier_monotone_c2 Channel.temperature 50 75 (by norm_num)

/-- C4: for every endpoint URL, when the health store's current status is
offline, safeApi.get performs no network call and immediately returns a
fallback-origin result whose data is the Fallback Provider's synthesized
output for that endpoint, whatever the live call would have produced. -/
theorem safe_get_offline_c4 (now : Int) (scoreR confR : Nat → ℚ)
    (live : LiveOutcome) (url : String) :
    (safeApiGet now scoreR confR BackendStatus.offline live url).networkCalled = false ∧
    (safeApiGet now scoreR confR BackendStatus.offline live url).result =
      { fallback := true, data := generateMockData now scoreR confR url, error := none } := by
  constructor <;> rfl

/-- C5: safeApi.get always resolves with a value (it is a total function
of the live outcome, so no exception propagates); on any live-call failure
it resolves with the Fallback Provider's output for that endpoint tagged
fallback together with the recorded error message, and on success with the
live payload tagged live. -/
theorem safe_get_total_c5 (now : Int) (scoreR confR : Nat → ℚ)
    (st : BackendStatus) (msg url : String) (h : st ≠ BackendStatus.offline) :
    (safeApiGet now scoreR confR st (LiveOutcome.failure msg) url).result =
      { fallback := true, data := generateMockData now scoreR confR url, error := some msg } ∧
    ∀ d : Json, (safeApiGet now scoreR confR st (LiveOutcome.success d) url).result =
      { fallback := false, data := d, error := none } := by
  constructor
  · simp [safeApiGet, h]
  · intro d
    simp [safeApiGet, h]

/-- Witness for C5 at a concrete input: backend online, live call failing
with a timeout message. -/
theorem safe_get_total_c5_witness :
    (safeApiGet 0 (fun _ => 0) (fun _ => 0) BackendStatus.online
        (LiveOutcome.failure "timeout") "/predictions").result.fallback = true ∧
    (safeApiGet 0 (fun _ => 0) (fun _ => 0) BackendStatus.online
        (LiveOutcome.failure "timeout") "/predictions").result.error = some "timeout" := by
  have h := safe_get_total_c5 0 (fun _ => 0) (fun _ => 0) BackendStatus.online
    "timeout" "/predictions" (by decide)
  exact ⟨by rw [h.1], by rw [h.1]⟩

/-- C8: the combined health signal of OfflineIndicator is offline exactly
when the backend probe failed, it does not depend on the AI or MQTT probe
results, and with the backend reachable no auxiliary failure yields the
offline state. -/
theorem combined_offline_c8 (s : ServiceStatus) :
    (isOffline s = true ↔ s.backend = false) ∧
    (∀ (a m : Bool) (t : Int),
      isOffline { backend := s.backend, ai := a, mqtt := m, lastCheck := t } = isOffline s) ∧
    (∀ (a m : Bool) (t : Int),
      isOffline { backend := true, ai := a, mqtt := m, lastCheck := t } = false) := by
  refine ⟨?_, fun a m t => rfl, fun a m t => rfl⟩
  simp [isOffline]

theorem findLt_60_falsy_of_80 :
    ∀ vals : List (Option ℚ),
      jsTruthy (jsFindLt 80 vals) = false → jsTruthy (jsFindLt 60 vals) = false := by
  intro vals
  induction vals with
  | nil => intro _; rfl
  | cons head rest ih =>
    cases head with
    | none =>
      intro h
      simp only [jsFindLt] at h ⊢
      exact ih h
    | some v =>
      by_cases h80 : v < 80
      · intro h
        simp only [jsFindLt, if_pos h80, jsTruthy] at h
        have hv : v = 0 := by simpa using h
        have h60 : v < 60 := by rw [hv]; norm_num
        simp only [jsFindLt, if_pos h60, jsTruthy]
        simpa using hv
      · intro h
        have h60 : ¬v < 60 := fun hc => h80 (by linarith)
        simp only [jsFindLt, if_neg h80] at h
        simp only [jsFindLt, if_neg h60]
        exact ih h

/-- C10: for every stability-percent value list with at least one non-null
value, the Stability card badge never displays Critical: the below-60
branch is tested only after the below-80 branch failed, and a failed
below-80 test forces the below-60 test to fail as well, so the badge is
always Stable or Unstable. -/
theorem stability_badge_c10 (vals : List (Option ℚ))
    (h : ∃ v : ℚ, Option.some v ∈ vals) :
    stabilityBadge vals ≠ "Critical" := by
  unfold stabilityBadge
  by_cases h80 : jsTruthy (jsFindLt 80 vals) = true
  · rw [if_pos h80]
    decide
  · have h80f : jsTruthy (jsFindLt 80 vals) = false := by simpa using h80
    have h60 := findLt_60_falsy_of_80 vals h80f
    rw [if_neg h80, if_neg (by simp [h60])]
    decide

/-- Witness for C10 at a concrete input: a single non-null value of 90. -/
theorem stability_badge_c10_witness :
    stabilityBadge [Option.some 90] ≠ "Critical" :=
  stability_badge_c10 [Option.some 90] ⟨90, by simp⟩

/-- Counterexample for C6: the recent sensor readings endpoint, which the
LiveDataTable component depends on, gets null from the fallback generator
rather than shape-compatible substitute data. -/
theorem mock_sensor_logs_null_c6 :
    generateMockData 0 (fun _ => 0) (fun _ => 0) "/sensor-data/logs?limit=20&sort=desc" =
      Json.null := rfl

/-- C6 amended: the fallback generator never errors and produces non-null
substitute data for an endpoint exactly when its URL contains one of the
five recognized patterns (predictions, dashboard overview, machines, AI
status, MQTT status); a matching endpoint gets the fixed mock payload of
the first matching pattern, which need not be shaped like the live
response of the endpoint actually queried (any URL containing the
predictions pattern gets the mock predictions list, and a URL containing
the machines pattern but neither earlier pattern gets the mock machines
list, as the dashboard stats endpoints do); every endpoint whose URL
contains none of the patterns, including the recent sensor readings
endpoint, gets null rather than shaped substitute data. -/
theorem mock_dispatch_c6 (now : Int) (scoreR confR : Nat → ℚ) (url : String) :
    (generateMockData now scoreR confR url = Json.null ↔
      (strContains url "/predictions" = false ∧
       strContains url "/dashboard/overview" = false ∧
       strContains url "/machines" = false ∧
       strContains url "/ai/status" = false ∧
       strContains url "/mqtt/status" = false)) ∧
    (strContains url "/predictions" = true →
      generateMockData now scoreR confR url =
        Json.arr ((List.range 10).map (mockPrediction now scoreR confR))) ∧
    (strContains url "/predictions" = false →
     strContains url "/dashboard/overview" = false →
     strContains url "/machines" = true →
      generateMockData now scoreR confR url =
        Json.arr ((List.range 5).map mockMachine)) := by
  refine ⟨?_, ?_, ?_⟩
  · unfold generateMockData
    split_ifs with h1 h2 h3 h4 h5 <;> simp_all [mockOverview, mockAiStatus, mockMqttStatus]
  · intro h1
    unfold generateMockData
    rw [if_pos h1]
  · intro h1 h2 h3
    unfold generateMockData
    rw [if_neg (by simp [h1]), if_neg (by simp [h2]), if_pos h3]

/-- Witness for C6 amended at a concrete input: the dashboard machine
stats endpoint contains the machines pattern and gets the mock machines
list, non-null but not shaped like a stats object. -/
theorem mock_dispatch_c6_witness :
    generateMockData 0 (fun _ => 0) (fun _ => 0) "/dashboard/machines/stats" =
      Json.arr ((List.range 5).map mockMachine) := by
  have h := mock_dispatch_c6 0 (fun _ => 0) (fun _ => 0) "/dashboard/machines/stats"
  exact h.2.2 (by decide) (by decide) (by decide)

/-- Counterexample for C7: a reading whose candidate hints are all absent
resolves to the channel temperature (the empty hint is contained in the
first alias table entry), and aggregating it does update the temperature
entry instead of dropping the reading. -/
theorem resolver_empty_hint_c7 :
    resolveChannel blankHintReading = some Channel.temperature ∧
    hintOf blankHintReading = "" ∧
    aggregate initialMonitors [blankHintReading] Channel.temperature ≠
      initialMonitors Channel.temperature := by decide

/-- C7 amended: the resolver lower-cases and normalizes the prioritized
candidate hints and tries exact table match first, then substring
containment in either direction with the first match winning; a reading
whose hint matches no table entry in either way is dropped from the
snapshot; however, a reading whose candidate hints are all absent or empty
yields the empty hint, which the containment rule resolves to the first
table entry, temperature, rather than leaving it unresolved. -/
theorem resolver_amended_c7 (s : String)
    (h : ∀ p ∈ typeMapping, p.1 ≠ s ∧ strContains s p.1 = false ∧ strContains p.1 s = false) :
    resolveHint s = none ∧
    (∀ (r : RawReading) (prev acc : Snapshot), resolveChannel r = none →
      processReading prev acc r = acc) ∧
    (∀ (t : String) (ch : Channel), lookupExact t = some ch → resolveHint t = some ch) ∧
    resolveHint "" = some Channel.temperature := by
  refine ⟨?_, ?_, ?_, by decide⟩
  · have he : lookupExact s = none := by
      unfold lookupExact
      rw [List.find?_eq_none.mpr]
      · rfl
      · intro p hp
        simpa using (h p hp).1
    have hc : lookupContained s = none := by
      unfold lookupContained
      rw [List.find?_eq_none.mpr]
      · rfl
      · intro p hp
        simp [(h p hp).2.1, (h p hp).2.2]
    simp only [resolveHint, he, hc]
  · intro r prev acc hr
    unfold processReading
    rw [hr]
  · intro t ch hl
    unfold resolveHint
    rw [hl]

/-- Witness for C7 amended at concrete inputs: the hint xyz matches no
table entry and is unresolved, while the empty hint resolves to
temperature. -/
theorem resolver_amended_c7_witness :
    resolveHint "xyz" = none ∧ resolveHint "" = some Channel.temperature := by
  have h := resolver_amended_c7 "xyz" (by decide)
  exact ⟨h.1, h.2.2.2⟩

theorem updateSnap_self (s : Snapshot) (ch : Channel) (e : MonitorEntry) :
    updateSnap s ch e ch = e := by
  simp [updateSnap]

theorem processReading_at (prev acc : Snapshot) (r : RawReading) (ch : Channel)
    (h : resolveChannel r = some ch) :
    processReading prev acc r =
      if isNewer ((acc ch).timestamp) (tsOf r) then updateSnap acc ch (entryOf prev ch r)
      else acc := by
  unfold processReading
  rw [h]

theorem processReading_resolved_at (prev acc : Snapshot) (r : RawReading) (ch : Channel)
    (h : resolveChannel r = some ch) :
    processReading prev acc r ch =
      if isNewer ((acc ch).timestamp) (tsOf r) then entryOf prev ch r else acc ch := by
  rw [processReading_at prev acc r ch h]
  by_cases hn : isNewer ((acc ch).timestamp) (tsOf r) = true
  · rw [if_pos hn, if_pos hn, updateSnap_self]
  · rw [if_neg hn, if_neg hn]

theorem processReading_other (prev acc : Snapshot) (r : RawReading) (c : Channel)
    (h : resolveChannel r ≠ some c) :
    processReading prev acc r c = acc c := by
  unfold processReading
  cases hr : resolveChannel r with
  | none => rfl
  | some ch =>
    have hne : c ≠ ch := fun he => h (he ▸ hr)
    by_cases hn : isNewer ((acc ch).timestamp) (tsOf r) = true
    · simp [hn, updateSnap, hne]
    · simp [hn]

/-- C3: for readings r1 and r2 on the same channel with strictly
increasing timestamps, aggregation is order independent at that channel,
the surviving entry is the one built from r2 (the reading with the
maximum timestamp) whenever r2 beats the prior entry, and an entry is ever
replaced only when the update guard holds, that is only by a strictly
newer reading or when no timestamped entry exists yet. -/
theorem aggregate_commutes_c3 (prev : Snapshot) (r1 r2 : RawReading) (ch : Channel)
    (t1 t2 : Int) (h1 : resolveChannel r1 = some ch) (h2 : resolveChannel r2 = some ch)
    (ht1 : tsOf r1 = some t1) (ht2 : tsOf r2 = some t2) (hlt : t1 < t2) :
    aggregate prev [r1, r2] ch = aggregate prev [r2, r1] ch ∧
    aggregate prev [r1, r2] ch =
      (if isNewer ((prev ch).timestamp) (some t2) then entryOf prev ch r2 else prev ch) ∧
    (∀ (acc : Snapshot) (r : RawReading) (c : Channel), resolveChannel r = some c →
      isNewer ((acc c).timestamp) (tsOf r) = false → processReading prev acc r = acc) := by
  have hnlt : ¬t2 < t1 := by omega
  have hA : aggregate prev [r1, r2] ch =
      (if isNewer ((prev ch).timestamp) (some t2) then entryOf prev ch r2 else prev ch) := by
    show processReading prev (processReading prev prev r1) r2 ch = _
    rw [processReading_resolved_at prev _ r2 ch h2,
        processReading_resolved_at prev prev r1 ch h1]
    cases hp : (prev ch).timestamp with
    | none => simp [isNewer, entryOf, ht1, ht2, hlt]
    | some c =>
      by_cases hc1 : c < t1
      · have hc2 : c < t2 := lt_trans hc1 hlt
        simp [isNewer, entryOf, ht1, ht2, hp, hc1, hc2, hlt]
      · by_cases hc2 : c < t2
        · simp [isNewer, entryOf, ht1, ht2, hp, hc1, hc2]
        · simp [isNewer, entryOf, ht1, ht2, hp, hc1, hc2]
  have hB : aggregate prev [r2, r1] ch =
      (if isNewer ((prev ch).timestamp) (some t2) then entryOf prev ch r2 else prev ch) := by
    show processReading prev (processReading prev prev r2) r1 ch = _
    rw [processReading_resolved_at prev _ r1 ch h1,
        processReading_resolved_at prev prev r2 ch h2]
    cases hp : (prev ch).timestamp with
    | none => simp [isNewer, entryOf, ht1, ht2, hnlt]
    | some c =>
      by_cases hc2 : c < t2
      · simp [isNewer, entryOf, ht1, ht2, hp, hc2, hnlt]
      · have hc1 : ¬c < t1 := by omega
        simp [isNewer, entryOf, ht1, ht2, hp, hc1, hc2]
  refine ⟨hA.trans hB.symm, hA, ?_⟩
  intro acc r c hr hf
  rw [processReading_at prev acc r c hr, if_neg]
  simp [hf]

/-- Witness for C3 at concrete inputs: two temperature readings with
timestamps 1 and 2 aggregate to the same entry in either order. -/
theorem aggregate_commutes_c3_witness :
    aggregate initialMonitors [readA, readB] Channel.temperature =
      aggregate initialMonitors [readB, readA] Channel.temperature :=
  (aggregate_commutes_c3 initialMonitors readA readB Channel.temperature 1 2
    (by decide) (by decide) (by decide) (by decide) (by decide)).1

theorem foldl_frame (prev : Snapshot) (ch : Channel) :
    ∀ (batch : List RawReading) (acc : Snapshot),
      (∀ r ∈ batch, resolveChannel r ≠ some ch) →
      (batch.foldl (processReading prev) acc) ch = acc ch := by
  intro batch
  induction batch with
  | nil => intro acc _; rfl
  | cons r rest ih =>
    intro acc h
    rw [List.foldl_cons,
        ih (processReading prev acc r) (fun x hx => h x (List.mem_cons_of_mem r hx))]
    exact processReading_other prev acc r ch (h r (List.mem_cons_self r rest))

/-- C9: aggregating an empty batch leaves the snapshot unchanged,
aggregating a batch in which no reading resolves leaves it unchanged, and
every channel to which no reading of the batch resolves keeps its prior
entry unchanged. -/
theorem aggregate_frame_c9 (prev : Snapshot) (batch : List RawReading) :
    aggregate prev [] = prev ∧
    ((∀ r ∈ batch, resolveChannel r = none) → aggregate prev batch = prev) ∧
    (∀ ch : Channel, (∀ r ∈ batch, resolveChannel r ≠ some ch) →
      aggregate prev batch ch = prev ch) := by
  refine ⟨rfl, ?_, ?_⟩
  · intro h
    funext ch
    exact foldl_frame prev ch batch prev
      (fun r hr hc => Option.noConfusion ((h r hr) ▸ hc))
  · intro ch h
    exact foldl_frame prev ch batch prev h

/-- Witness for C9 at concrete inputs: a batch holding one unresolvable
reading leaves the initial snapshot unchanged. -/
theorem aggregate_frame_c9_witness :
    aggregate initialMonitors [strayReading] = initialMonitors :=
  (aggregate_frame_c9 initialMonitors [strayReading]).2.1 (by decide)
